import Mathlib

/-!
Verification of the aparto rental-watcher pipeline.

This file gives a shallow embedding, in Lean 4, of the core logic of the
aparto repository (listing acquisition, change detection, notification
dispatch, livability scoring, commute computation) and proves properties
about it.  Each definition is translated from the TypeScript source file
indicated in its doc comment; stateful Redis operations are modelled by
explicit state passing, external HTTP services by response oracles passed
as function arguments, and fallible code by Except / Option results.
Wall-clock timestamps (computedAt fields, Date.now ids) are omitted from
the embedded records since no verified property mentions them.
-/

namespace Aparto

/-- Association of a train station to a property: the station name and the
pivot walking-distance minutes (src/lib/types.ts, TrainStation). -/
structure StationAssoc where
  name : String
  walkingMinutes : Nat
deriving DecidableEq

/-- A rental listing (src/lib/types.ts, Property).  Display-only fields
(images, addresses, localized names, status flags) are omitted; the nested
prefecture / ward objects are flattened to their slug, which is the only
field the embedded code reads. -/
structure Property where
  id : Nat
  name : String
  rent_amount : Nat
  size_sqm : ℚ
  bed_rooms : Nat
  layout : String
  key_money : Nat
  security_deposit : Nat
  slug : String
  room_number : String
  prefectureSlug : String
  wardSlug : String
  trainStations : List StationAssoc
deriving DecidableEq

/-- The Redis known-ID set (key properties:known), modelled as a finite set
of listing identifiers. -/
abbrev KnownIds := Finset Nat

/-- redis.del on the known-ID set key: the stored set becomes empty,
whatever it was before. -/
def delKnownIds (_prior : KnownIds) : KnownIds := ∅

/-- redis.sadd of a list of ids into the stored set. -/
def saddAll (ids : List Nat) (s : KnownIds) : KnownIds :=
  ids.foldl (fun acc i => insert i acc) s

/-- syncKnownPropertyIds (src/lib/redis.ts lines 30-40): one pipeline that
deletes the known-ID set and then, when the input list is nonempty, sadds
every current id. -/
def syncKnownPropertyIds (currentIds : List Nat) (prior : KnownIds) : KnownIds :=
  let afterDel := delKnownIds prior
  if currentIds.length > 0 then saddAll currentIds afterDel else afterDel

/-- The new-listing diff (src/app/api/poll/route.ts line 65):
properties.filter((p) => !knownIds.has(p.id)). -/
def diffNew (properties : List Property) (knownIds : KnownIds) : List Property :=
  properties.filter (fun p => decide (p.id ∉ knownIds))

/-- The durable synchronizer state: the known-ID set and the cached
latest snapshot (Redis keys properties:known and properties:latest). -/
structure SyncState where
  knownIds : KnownIds
  listings : List Property
deriving DecidableEq

/-- Result of one poll cycle: the diffed new properties, the properties for
which notifications were dispatched, and the state written back. -/
structure PollOutcome where
  newProperties : List Property
  notified : List Property
  state : SyncState
deriving DecidableEq

/-- One poll cycle (src/app/api/poll/route.ts lines 52-92): fetch a
snapshot, read known ids, diff, dispatch notifications only when the diff
is nonempty and the known set was nonempty (first poll seeds silently),
then replace the known-ID set and the cached snapshot. -/
def pollCycle (snapshot : List Property) (st : SyncState) : PollOutcome :=
  let newProps := diffNew snapshot st.knownIds
  let notified := if newProps.length > 0 ∧ st.knownIds.card > 0 then newProps else []
  { newProperties := newProps
    notified := notified
    state :=
      { knownIds := syncKnownPropertyIds (snapshot.map (·.id)) st.knownIds
        listings := snapshot } }

/-- Success path of the settings update handler (src/unnamed/part_006
lines 37-51): clear the known-ID set, fetch a fresh snapshot with the new
filters, reseed the known ids from it and cache the snapshot, dispatching
no notifications.  Filter persistence itself is not modelled: no verified
property reads the stored filters. -/
def settingsReseed (snapshot : List Property) (st : SyncState) : SyncState :=
  let st1 : SyncState := { st with knownIds := syncKnownPropertyIds [] st.knownIds }
  { knownIds := syncKnownPropertyIds (snapshot.map (·.id)) st1.knownIds
    listings := snapshot }

/-- A concrete sample listing used to instantiate proved theorems. -/
def sampleProperty : Property :=
  { id := 101
    name := "Sample Residence"
    rent_amount := 200000
    size_sqm := 50
    bed_rooms := 2
    layout := "2LDK"
    key_money := 0
    security_deposit := 0
    slug := "sample-residence"
    room_number := "101"
    prefectureSlug := "tokyo"
    wardSlug := "minato"
    trainStations := [⟨"StationA", 4⟩, ⟨"StationB", 7⟩] }

/-- A second concrete sample listing, with a different identifier. -/
def sampleProperty2 : Property :=
  { sampleProperty with id := 202, name := "Second Residence", slug := "second-residence" }

/-- A third concrete sample listing. -/
def sampleProperty3 : Property :=
  { sampleProperty with id := 303, name := "Third Residence", slug := "third-residence" }

/-- Amenity counts returned by one Overpass query (livability module,
type AmenityCounts). -/
structure AmenityCounts where
  supermarkets : Nat
  restaurants : Nat
  convenience : Nat
  parks : Nat
deriving DecidableEq

/-- scoreStation (livability module lines 206-213). -/
def scoreStation (walkingMinutes : Nat) : Nat :=
  if walkingMinutes ≤ 3 then 10
  else if walkingMinutes ≤ 5 then 8
  else if walkingMinutes ≤ 8 then 6
  else if walkingMinutes ≤ 12 then 4
  else if walkingMinutes ≤ 15 then 2
  else 1

/-- scoreSupermarkets (livability module lines 215-221). -/
def scoreSupermarkets (count : Nat) : Nat :=
  if count = 0 then 0
  else if count = 1 then 4
  else if count = 2 then 6
  else if count = 3 then 8
  else 10

/-- scoreRestaurants (livability module lines 223-230). -/
def scoreRestaurants (count : Nat) : Nat :=
  if count = 0 then 0
  else if count ≤ 5 then 3
  else if count ≤ 15 then 5
  else if count ≤ 30 then 7
  else if count ≤ 50 then 8
  else 10

/-- scoreConvenience (livability module lines 232-237). -/
def scoreConvenience (count : Nat) : Nat :=
  if count = 0 then 0
  else if count = 1 then 4
  else if count = 2 then 7
  else 10

/-- scoreParks (livability module lines 239-244). -/
def scoreParks (count : Nat) : Nat :=
  if count = 0 then 0
  else if count = 1 then 5
  else if count = 2 then 7
  else 10

/-- Round a rational to the nearest integer, a tie going to the even
neighbour: the rounding of IEEE 754 binary64 arithmetic. -/
def roundNearestEven (x : ℚ) : ℤ :=
  if x - (⌊x⌋ : ℚ) < 1 / 2 then ⌊x⌋
  else if 1 / 2 < x - (⌊x⌋ : ℚ) then ⌊x⌋ + 1
  else if ⌊x⌋ % 2 = 0 then ⌊x⌋ else ⌊x⌋ + 1

/-- Round a nonnegative rational to the grid of multiples of 2 ^ (-k):
the 53-bit mantissa grid of the binade whose unit in the last place is
2 ^ (-k). -/
def flAt (k : Nat) (q : ℚ) : ℚ :=
  (roundNearestEven (q * 2 ^ k) : ℚ) / 2 ^ k

/-- The value an IEEE 754 binary64 register holds after computing the
nonnegative rational q: q rounded to the nearest 53-bit float, ties to
even.  The binade branches cover [0.125, 16), which contains every
nonzero value arising in the weighted score sum (products are at least
1 * 0.15 and partial sums stay below 16). -/
def fl (q : ℚ) : ℚ :=
  if q = 0 then 0
  else if q < 1 / 4 then flAt 55 q
  else if q < 1 / 2 then flAt 54 q
  else if q < 1 then flAt 53 q
  else if q < 2 then flAt 52 q
  else if q < 4 then flAt 51 q
  else if q < 8 then flAt 50 q
  else flAt 49 q

/-- Fixed scoring weight for station proximity (livability module WEIGHTS):
the binary64 value of the literal 0.25 (exactly representable). -/
def WEIGHTS_station : ℚ := fl 0.25

/-- Fixed scoring weight for supermarkets: the binary64 value of 0.25. -/
def WEIGHTS_supermarkets : ℚ := fl 0.25

/-- Fixed scoring weight for restaurants: the binary64 value of the
literal 0.2, which is slightly above 1/5. -/
def WEIGHTS_restaurants : ℚ := fl 0.2

/-- Fixed scoring weight for convenience stores: the binary64 value of
the literal 0.15, which is slightly below 3/20. -/
def WEIGHTS_convenience : ℚ := fl 0.15

/-- Fixed scoring weight for parks: the binary64 value of 0.15. -/
def WEIGHTS_parks : ℚ := fl 0.15

/-- The weighted sum of computeScore (livability module lines 372-379) as
the program computes it: left to right over IEEE binary64, every product
and every partial sum rounded by fl. -/
def jsWeightedSum (st sm re cv pk : Nat) : ℚ :=
  fl (fl (fl (fl (fl ((st : ℚ) * WEIGHTS_station) + fl ((sm : ℚ) * WEIGHTS_supermarkets))
        + fl ((re : ℚ) * WEIGHTS_restaurants))
      + fl ((cv : ℚ) * WEIGHTS_convenience))
    + fl ((pk : ℚ) * WEIGHTS_parks))

/-- Number(x.toFixed(1)) on a nonnegative value, and the reading of the
spec's "rounded to one decimal": the nearest multiple of 1/10, a tie
going to the larger candidate (the toFixed tie rule).  The final re-parse
of the decimal string back to binary is omitted: it is injective on
one-decimal values and no verified property observes it. -/
def roundToTenth (q : ℚ) : ℚ := (⌊10 * q + 1 / 2⌋ : ℚ) / 10

/-- Input descriptor for the scoring engine (livability module,
type PropertyInput). -/
structure ScorePropertyInput where
  id : Nat
  latitude : ℚ
  longitude : ℚ
  nearestStationMinutes : Nat
deriving DecidableEq

/-- A computed livability score (src/lib/types.ts, LivabilityScore), with
the nested counts object flattened and the computedAt wall-clock stamp
omitted. -/
structure LivabilityScore where
  propertyId : Nat
  overall : ℚ
  station : Nat
  supermarkets : Nat
  restaurants : Nat
  convenience : Nat
  parks : Nat
  countsSupermarkets : Nat
  countsRestaurants : Nat
  countsConvenience : Nat
  countsParks : Nat
  countsNearestStationMinutes : Nat
deriving DecidableEq

/-- The pure core of computeScore (livability module lines 364-398): the
component scores, and the overall score obtained by evaluating the
weighted sum in IEEE binary64 arithmetic (jsWeightedSum) and rounding the
resulting double to one decimal (toFixed). -/
def mkScore (property : ScorePropertyInput) (counts : AmenityCounts) : LivabilityScore :=
  let stationScore := scoreStation property.nearestStationMinutes
  let supermarketsScore := scoreSupermarkets counts.supermarkets
  let restaurantsScore := scoreRestaurants counts.restaurants
  let convenienceScore := scoreConvenience counts.convenience
  let parksScore := scoreParks counts.parks
  let overall := roundToTenth
    (jsWeightedSum stationScore supermarketsScore restaurantsScore
      convenienceScore parksScore)
  { propertyId := property.id
    overall := overall
    station := stationScore
    supermarkets := supermarketsScore
    restaurants := restaurantsScore
    convenience := convenienceScore
    parks := parksScore
    countsSupermarkets := counts.supermarkets
    countsRestaurants := counts.restaurants
    countsConvenience := counts.convenience
    countsParks := counts.parks
    countsNearestStationMinutes := property.nearestStationMinutes }

/-- Station rubric as the spec states it: walking minutes at most 3 give
10, at most 5 give 8, at most 8 give 6, at most 12 give 4, at most 15
give 2, anything longer gives 1. -/
def rubricStation (w : Nat) : Nat :=
  if w ≤ 3 then 10
  else if w ≤ 5 then 8
  else if w ≤ 8 then 6
  else if w ≤ 12 then 4
  else if w ≤ 15 then 2
  else 1

/-- Supermarket rubric as the spec states it: counts 0 / 1 / 2 / 3 / 4+
map to 0 / 4 / 6 / 8 / 10. -/
def rubricSupermarkets (c : Nat) : Nat :=
  if c = 0 then 0
  else if c = 1 then 4
  else if c = 2 then 6
  else if c = 3 then 8
  else 10

/-- Restaurant rubric as the spec states it: counts 0 / 1-5 / 6-15 /
16-30 / 31-50 / 51+ map to 0 / 3 / 5 / 7 / 8 / 10. -/
def rubricRestaurants (c : Nat) : Nat :=
  if c = 0 then 0
  else if 1 ≤ c ∧ c ≤ 5 then 3
  else if 6 ≤ c ∧ c ≤ 15 then 5
  else if 16 ≤ c ∧ c ≤ 30 then 7
  else if 31 ≤ c ∧ c ≤ 50 then 8
  else 10

/-- Convenience-store rubric as the spec states it: counts 0 / 1 / 2 / 3+
map to 0 / 4 / 7 / 10. -/
def rubricConvenience (c : Nat) : Nat :=
  if c = 0 then 0
  else if c = 1 then 4
  else if c = 2 then 7
  else 10

/-- Park rubric as the spec states it: counts 0 / 1 / 2 / 3+ map to
0 / 5 / 7 / 10. -/
def rubricParks (c : Nat) : Nat :=
  if c = 0 then 0
  else if c = 1 then 5
  else if c = 2 then 7
  else 10

/-- redis.get on a per-id cache key, the cache being modelled as an
association list in which the most recent write is the first entry. -/
def cacheGet {α : Type} (cache : List (Nat × α)) (id : Nat) : Option α :=
  (cache.find? (fun e => e.1 == id)).map (·.2)

/-- redis.set on a per-id cache key: the new entry shadows any older one.
The expiry argument of the underlying call (7 days for scores) is not
modelled; no verified property mentions expiry. -/
def cacheSet {α : Type} (cache : List (Nat × α)) (id : Nat) (value : α) : List (Nat × α) :=
  (id, value) :: cache

/-- computeScore (livability module lines 351-404), with the cache passed
explicitly and fetchAmenityCounts abstracted as an outcome oracle keyed by
the coordinates the code passes it: return the cached score when present,
otherwise fetch, build the score record, cache it and return it; a fetch
failure propagates. -/
def computeScore (fetchOutcome : ℚ → ℚ → Except String AmenityCounts)
    (cache : List (Nat × LivabilityScore)) (property : ScorePropertyInput) :
    Except String (LivabilityScore × List (Nat × LivabilityScore)) :=
  match cacheGet cache property.id with
  | some cached => .ok (cached, cache)
  | none =>
    match fetchOutcome property.latitude property.longitude with
    | .error e => .error e
    | .ok counts =>
      let score := mkScore property counts
      .ok (score, cacheSet cache property.id score)

/-- The zero-score placeholder computeScores pushes for a failed property
(livability module lines 428-444). -/
def zeroScore (property : ScorePropertyInput) : LivabilityScore :=
  { propertyId := property.id
    overall := 0
    station := 0
    supermarkets := 0
    restaurants := 0
    convenience := 0
    parks := 0
    countsSupermarkets := 0
    countsRestaurants := 0
    countsConvenience := 0
    countsParks := 0
    countsNearestStationMinutes := property.nearestStationMinutes }

/-- computeScores (livability module lines 411-454): sequential batch over
the inputs; a per-property failure pushes the zero placeholder without a
cache write and the batch continues.  The inter-call rate-limit delay is
timing behaviour and is not modelled. -/
def computeScores (fetchOutcome : ℚ → ℚ → Except String AmenityCounts)
    (cache : List (Nat × LivabilityScore)) :
    List ScorePropertyInput → List LivabilityScore × List (Nat × LivabilityScore)
  | [] => ([], cache)
  | p :: rest =>
    match computeScore fetchOutcome cache p with
    | .ok (s, cache1) =>
      let (tail, cache2) := computeScores fetchOutcome cache1 rest
      (s :: tail, cache2)
    | .error _ =>
      let (tail, cache2) := computeScores fetchOutcome cache rest
      (zeroScore p :: tail, cache2)

/-- Commute info (src/lib/types.ts, CommuteInfo), computedAt omitted. -/
structure CommuteInfo where
  propertyId : Nat
  durationMinutes : Nat
  durationText : String
  transferCount : Nat
deriving DecidableEq

/-- Input descriptor for the commute engine (commute module,
type PropertyInput). -/
structure CommutePropertyInput where
  id : Nat
  latitude : ℚ
  longitude : ℚ
deriving DecidableEq

/-- computeCommute (src/lib/commute.ts lines 112-134, identical in
src/unnamed/part_008 lines 124-146): cached-or-computed commute info, with
fetchCommuteFromGoogle abstracted as an outcome oracle returning duration
minutes and transfer count. -/
def computeCommute (routeOutcome : ℚ → ℚ → Except String (Nat × Nat))
    (cache : List (Nat × CommuteInfo)) (property : CommutePropertyInput) :
    Except String (CommuteInfo × List (Nat × CommuteInfo)) :=
  match cacheGet cache property.id with
  | some cached => .ok (cached, cache)
  | none =>
    match routeOutcome property.latitude property.longitude with
    | .error e => .error e
    | .ok (durationMinutes, transferCount) =>
      let commute : CommuteInfo :=
        { propertyId := property.id
          durationMinutes := durationMinutes
          durationText := toString durationMinutes ++ " min"
          transferCount := transferCount }
      .ok (commute, cacheSet cache property.id commute)

/-- The zero-valued placeholder both computeCommutes variants push for a
failed property: duration 0 minutes, empty text, transfer count 0. -/
def commutePlaceholder (property : CommutePropertyInput) : CommuteInfo :=
  { propertyId := property.id
    durationMinutes := 0
    durationText := ""
    transferCount := 0 }

/-- computeCommutes (src/lib/commute.ts lines 141-174): sequential batch;
a per-property failure pushes the placeholder and the cache is left
untouched. -/
def computeCommutes (routeOutcome : ℚ → ℚ → Except String (Nat × Nat))
    (cache : List (Nat × CommuteInfo)) :
    List CommutePropertyInput → List CommuteInfo × List (Nat × CommuteInfo)
  | [] => ([], cache)
  | p :: rest =>
    match computeCommute routeOutcome cache p with
    | .ok (c, cache1) =>
      let (tail, cache2) := computeCommutes routeOutcome cache1 rest
      (c :: tail, cache2)
    | .error _ =>
      let (tail, cache2) := computeCommutes routeOutcome cache rest
      (commutePlaceholder p :: tail, cache2)

/-- The debugLimit constant of src/unnamed/part_008 line 159. -/
def debugLimit : Nat := 1

/-- Batch loop of the part_008 computeCommutes variant: on failure the
placeholder is written to the cache (setCachedCommute, part_008 line 181)
before being pushed. -/
def computeCommutesDebugLoop (routeOutcome : ℚ → ℚ → Except String (Nat × Nat))
    (cache : List (Nat × CommuteInfo)) :
    List CommutePropertyInput → List CommuteInfo × List (Nat × CommuteInfo)
  | [] => ([], cache)
  | p :: rest =>
    match computeCommute routeOutcome cache p with
    | .ok (c, cache1) =>
      let (tail, cache2) := computeCommutesDebugLoop routeOutcome cache1 rest
      (c :: tail, cache2)
    | .error _ =>
      let cache1 := cacheSet cache p.id (commutePlaceholder p)
      let (tail, cache2) := computeCommutesDebugLoop routeOutcome cache1 rest
      (commutePlaceholder p :: tail, cache2)

/-- computeCommutes as written in src/unnamed/part_008 lines 153-192: the
input list is sliced to the first debugLimit = 1 properties before the
batch loop runs. -/
def computeCommutesDebug (routeOutcome : ℚ → ℚ → Except String (Nat × Nat))
    (cache : List (Nat × CommuteInfo)) (properties : List CommutePropertyInput) :
    List CommuteInfo × List (Nat × CommuteInfo) :=
  let limited := properties.take debugLimit
  computeCommutesDebugLoop routeOutcome cache limited

/-- The Overpass mirror endpoints in priority order (livability module
lines 187-190). -/
def OVERPASS_SERVERS : List String :=
  ["https://overpass-api.de/api/interpreter",
   "https://overpass.private.coffee/api/interpreter"]

/-- MAX_RETRIES (livability module line 192). -/
def MAX_RETRIES : Nat := 3

/-- serverUrl.split('/')[2]: the host part used in log and error text. -/
def hostOf (url : String) : String := (url.splitOn "/").getD 2 ""

/-- What one HTTP round trip to an Overpass server can yield: a parsed
amenity-count payload, status 429, another non-2xx status, or a thrown
network error. -/
inductive OverpassResponse where
  | ok (counts : AmenityCounts)
  | rateLimited
  | httpError (status : Nat)
  | networkError (msg : String)
deriving DecidableEq

/-- One attempt as recorded on the trace: which server (by index in
OVERPASS_SERVERS), which attempt number, and the backoff slept before it
(0 for a first attempt, 3000 * 2 ^ (attempt - 1) otherwise, livability
module line 279). -/
structure FetchAttempt where
  server : Nat
  attempt : Nat
  backoffMs : Nat
deriving DecidableEq

/-- The inner attempt loop of fetchAmenityCounts (livability module lines
277-330) against one server, the HTTP exchange abstracted as a response
oracle indexed by server and attempt number.  Returns the successful
counts if any, the list of attempts made, and the threaded lastError.
Only a 429 response is retried; any other failure breaks to the next
server after recording lastError. -/
def tryServer (resp : Nat → Nat → OverpassResponse) (server : Nat) (url : String) :
    Nat → Nat → Option String → Option AmenityCounts × List FetchAttempt × Option String
  | 0, _, lastErr => (none, [], lastErr)
  | remaining + 1, attempt, lastErr =>
    let backoff := if attempt = 0 then 0 else 3000 * 2 ^ (attempt - 1)
    let att : FetchAttempt := ⟨server, attempt, backoff⟩
    match resp server attempt with
    | .ok c => (some c, [att], lastErr)
    | .rateLimited =>
      let e := some ("Rate limited (429) on " ++ hostOf url)
      if attempt = MAX_RETRIES - 1 then (none, [att], e)
      else
        match tryServer resp server url remaining (attempt + 1) e with
        | (r, trace, le) => (r, att :: trace, le)
    | .httpError status =>
      (none, [att], some ("Overpass error " ++ toString status ++ " on " ++ hostOf url))
    | .networkError msg => (none, [att], some msg)

/-- The outer mirror loop of fetchAmenityCounts (livability module lines
276-335): walk the servers in priority order, each with its attempt loop;
a success returns immediately, and when every server has failed the
accumulated lastError is thrown. -/
def fetchServersLoop (resp : Nat → Nat → OverpassResponse) :
    List (Nat × String) → Option String → Except String AmenityCounts × List FetchAttempt
  | [], lastErr => (.error (lastErr.getD "All Overpass servers failed"), [])
  | (server, url) :: rest, lastErr =>
    match tryServer resp server url MAX_RETRIES 0 lastErr with
    | (some c, trace, _) => (.ok c, trace)
    | (none, trace, le) =>
      match fetchServersLoop resp rest le with
      | (r, trace2) => (r, trace ++ trace2)

/-- fetchAmenityCounts (livability module lines 259-336), instrumented
with the attempt trace. -/
def fetchAmenityCounts (resp : Nat → Nat → OverpassResponse) :
    Except String AmenityCounts × List FetchAttempt :=
  fetchServersLoop resp OVERPASS_SERVERS.enum none

/-- A concrete response oracle: the primary is always rate limited and the
mirror answers HTTP 500 on every attempt. -/
def respAllFail : Nat → Nat → OverpassResponse :=
  fun server _ =>
    if server = 0 then OverpassResponse.rateLimited else OverpassResponse.httpError 500

/-- A push endpoint registration (src/lib/types.ts,
PushSubscriptionRecord), the key pair flattened and the createdAt
wall-clock stamp omitted. -/
structure PushSubscriptionRecord where
  endpoint : String
  p256dh : String
  auth : String
deriving DecidableEq

/-- A derived notification record (src/lib/types.ts, AppNotification).
The two wall-clock fields, the Date.now based id and the ISO timestamp,
are omitted. -/
structure AppNotification where
  propertyId : Nat
  propertyName : String
  rentAmount : Nat
  sizeSqm : ℚ
  bedRooms : Nat
  layout : String
  nearestStation : String
  walkingMinutes : Nat
  slug : String
  roomNumber : String
  prefectureSlug : String
  wardSlug : String
deriving DecidableEq

/-- hashEndpoint (src/lib/redis.ts lines 93-97): the last 64 characters
of the endpoint with every character outside a-z, A-Z, 0-9 replaced by an
underscore. -/
def hashEndpoint (endpoint : String) : String :=
  String.mk ((endpoint.data.reverse.take 64).reverse.map
    (fun c => if c.isAlphanum then c else '_'))

/-- The push subscription registry: the Redis hash push:subscriptions,
each entry keyed by hashEndpoint of its stored endpoint. -/
abbrev Registry := List (String × PushSubscriptionRecord)

/-- removeSubscription (src/lib/redis.ts lines 88-91): hdel of the
endpoint hash key. -/
def removeSubscription (endpoint : String) (registry : Registry) : Registry :=
  registry.filter (fun e => !(e.1 == hashEndpoint endpoint))

/-- getAllSubscriptions (src/lib/redis.ts lines 72-78): the hash values. -/
def getAllSubscriptions (registry : Registry) : List PushSubscriptionRecord :=
  registry.map (·.2)

/-- MAX_NOTIFICATIONS (src/lib/redis.ts line 102). -/
def MAX_NOTIFICATIONS : Nat := 50

/-- addNotifications (src/lib/redis.ts lines 109-121): nothing happens on
an empty input; otherwise one pipeline lpushes every record in order —
so the records end up newest-first in front of the old history — and
ltrims to the most recent MAX_NOTIFICATIONS. -/
def addNotifications (notifications : List AppNotification)
    (history : List AppNotification) : List AppNotification :=
  if notifications.isEmpty then history
  else (notifications.reverse ++ history).take MAX_NOTIFICATIONS

/-- The nearest-station reduce of src/lib/push.ts lines 40-52: minimum
walking minutes, ties broken in favour of the first encountered. -/
def nearestStation (stations : List StationAssoc) : Option StationAssoc :=
  stations.foldl
    (fun nearest station =>
      match nearest with
      | none => some station
      | some n =>
        if station.walkingMinutes < n.walkingMinutes then some station else some n)
    none

/-- rent_amount.toLocaleString(): decimal digits grouped in threes by
commas, the grouping the runtime default locale applies to the yen
amounts. -/
def toLocaleString (n : Nat) : String :=
  String.mk (((List.toChunks 3 (toString n).data.reverse).intersperse [',']).flatten.reverse)

/-- The derived notification record for one property
(src/lib/push.ts lines 39-71). -/
def mkNotification (prop : Property) : AppNotification :=
  let ns := nearestStation prop.trainStations
  { propertyId := prop.id
    propertyName := prop.name
    rentAmount := prop.rent_amount
    sizeSqm := prop.size_sqm
    bedRooms := prop.bed_rooms
    layout := prop.layout
    nearestStation := (ns.map (·.name)).getD "Unknown"
    walkingMinutes := (ns.map (·.walkingMinutes)).getD 0
    slug := prop.slug
    roomNumber := prop.room_number
    prefectureSlug := prop.prefectureSlug
    wardSlug := prop.wardSlug }

/-- buildPropertyUrl (src/lib/ehousing.ts lines 313-320). -/
def buildPropertyUrl (prefectureSlug wardSlug slug roomNumber : String) : String :=
  "https://e-housing.jp/rent/" ++ prefectureSlug ++ "/" ++ wardSlug ++ "/"
    ++ slug ++ "/" ++ roomNumber

/-- formatPropertySummary (src/lib/push.ts lines 141-173).  The JS
default formatting of the fractional size is approximated by the ℚ
toString. -/
def formatPropertySummary (prop : Property) : String :=
  let ns := nearestStation prop.trainStations
  let parts :=
    ["¥" ++ toLocaleString prop.rent_amount ++ "/mo",
     toString prop.bed_rooms ++ " bed",
     toString prop.size_sqm ++ "m²",
     prop.layout]
  let parts := parts ++
    (match ns with
     | some n => [n.name ++ " " ++ toString n.walkingMinutes ++ "min"]
     | none => [])
  let parts := parts ++ (if prop.key_money = 0 then ["No key money"] else [])
  let parts := parts ++ (if prop.security_deposit = 0 then ["No deposit"] else [])
  String.intercalate " · " parts

/-- The one shared notification payload (src/lib/push.ts lines 73-102),
kept structured rather than JSON-serialized. -/
structure PushPayload where
  title : String
  body : String
  url : String
  propertyCount : Nat
deriving DecidableEq

/-- Payload construction (src/lib/push.ts lines 74-102): one detailed
summary for a single listing, a count title plus at most three short
summaries otherwise. -/
def mkPayload (properties : List Property) : PushPayload :=
  { title :=
      if properties.length = 1 then
        "New listing: " ++ (properties.head?.map (·.name)).getD ""
      else toString properties.length ++ " new listings found"
    body :=
      if properties.length = 1 then
        (properties.head?.map formatPropertySummary).getD ""
      else
        String.intercalate "\n"
          ((properties.take 3).map
            (fun p => p.name ++ " - ¥" ++ toLocaleString p.rent_amount))
    url :=
      if properties.length = 1 then
        (properties.head?.map
          (fun p => buildPropertyUrl p.prefectureSlug p.wardSlug p.slug p.room_number)).getD ""
      else "/"
    propertyCount := properties.length }

/-- Outcome of one web-push delivery attempt: delivered, or failed with
the optional HTTP status code the transport reports. -/
inductive SendOutcome where
  | delivered
  | failed (statusCode : Option Nat)
deriving DecidableEq

/-- Whether sendPushNotification (src/lib/push.ts lines 116-139) removes
the subscription after this outcome: only on status 410 or 404. -/
def isGone : SendOutcome → Bool
  | .failed (some 410) => true
  | .failed (some 404) => true
  | _ => false

/-- Everything notifyNewProperties leaves behind: the records it returns,
the registry and history after it ran, and the delivery attempts it made
(endpoint, payload). -/
structure NotifyResult where
  records : List AppNotification
  registry : Registry
  history : List AppNotification
  sends : List (String × PushPayload)
deriving DecidableEq

/-- notifyNewProperties (src/lib/push.ts lines 25-114): nothing happens
without properties, without VAPID configuration or without
subscriptions; otherwise the notification records are derived, one
shared payload is built, a delivery is attempted for every registered
endpoint (the failure handling of each attempt removing gone endpoints,
independently per endpoint), and the records are appended to the bounded
history. -/
def notifyNewProperties (transport : String → SendOutcome) (vapidConfigured : Bool)
    (registry : Registry) (history : List AppNotification)
    (properties : List Property) : NotifyResult :=
  if properties.isEmpty then ⟨[], registry, history, []⟩
  else if !vapidConfigured then ⟨[], registry, history, []⟩
  else
    let subscriptions := getAllSubscriptions registry
    if subscriptions.isEmpty then ⟨[], registry, history, []⟩
    else
      let notifications := properties.map mkNotification
      let payload := mkPayload properties
      let sends := subscriptions.map (fun sub => (sub.endpoint, payload))
      let registry2 := subscriptions.foldl
        (fun reg sub =>
          if isGone (transport sub.endpoint) then removeSubscription sub.endpoint reg
          else reg)
        registry
      let history2 := addNotifications notifications history
      ⟨notifications, registry2, history2, sends⟩

/-- A registered endpoint whose transport will report 410 Gone. -/
def goneSub : PushSubscriptionRecord :=
  ⟨"https://push.example.com/sub/gone-endpoint-42", "key1", "auth1"⟩

/-- A registered endpoint whose transport will fail with HTTP 500. -/
def flakySub : PushSubscriptionRecord :=
  ⟨"https://push.example.com/sub/flaky-endpoint-43", "key2", "auth2"⟩

/-- A registered endpoint whose transport will deliver. -/
def liveSub : PushSubscriptionRecord :=
  ⟨"https://push.example.com/sub/live-endpoint-44", "key3", "auth3"⟩

/-- A concrete three-endpoint registry keyed as addSubscription keys it. -/
def sampleRegistry : Registry :=
  [(hashEndpoint goneSub.endpoint, goneSub),
   (hashEndpoint flakySub.endpoint, flakySub),
   (hashEndpoint liveSub.endpoint, liveSub)]

/-- A concrete transport: 410 for the gone endpoint, 500 for the flaky
one, delivery everywhere else. -/
def sampleTransport : String → SendOutcome := fun e =>
  if e = goneSub.endpoint then .failed (some 410)
  else if e = flakySub.endpoint then .failed (some 500)
  else .delivered

/-- Direct translation of the scanning loop shared by extractBalancedArray
(src/lib/ehousing.ts lines 214-250) and the inline brace loop of
extractMeta (lines 264-305), generic in the bracket pair: a pending
escape consumes the character, a backslash sets the escape flag, a quote
toggles the in-string flag, characters inside a string are skipped, and
outside a string the bracket depth is counted; returns the relative index
at which depth returns to zero, or none when the input ends first. -/
def extractLoop (openB closeB : Char) : List Char → Int → Bool → Bool → Nat → Option Nat
  | [], _, _, _, _ => none
  | c :: rest, depth, inString, escaped, i =>
    if escaped then extractLoop openB closeB rest depth inString false (i + 1)
    else if c = '\\' then extractLoop openB closeB rest depth inString true (i + 1)
    else if c = '\"' then extractLoop openB closeB rest depth (!inString) escaped (i + 1)
    else if inString then extractLoop openB closeB rest depth inString escaped (i + 1)
    else
      let d1 := if c = openB then depth + 1 else depth
      if c = closeB then
        if d1 - 1 = 0 then some i
        else extractLoop openB closeB rest (d1 - 1) inString escaped (i + 1)
      else extractLoop openB closeB rest d1 inString escaped (i + 1)

/-- extractBalancedArray (src/lib/ehousing.ts lines 214-250): the
substring from startIdx through the index where the bracket depth returns
to zero, or the thrown error when the string ends first.  Strings are
embedded as character lists. -/
def extractBalancedArray (s : List Char) (startIdx : Nat) : Except String (List Char) :=
  match extractLoop '[' ']' (s.drop startIdx) 0 false false 0 with
  | some i => .ok ((s.drop startIdx).take (i + 1))
  | none => .error "Could not find matching bracket for properties array"

/-- The brace-balancing scan of extractMeta (src/lib/ehousing.ts lines
264-307): the same automaton over braces; reaching the end of input makes
extractMeta return null (modelled none) rather than throw. -/
def extractMetaObject (s : List Char) (objStart : Nat) : Option (List Char) :=
  match extractLoop '\x7b' '\x7d' (s.drop objStart) 0 false false 0 with
  | some i => some ((s.drop objStart).take (i + 1))
  | none => none

/-- Scanning state of the spec automaton: bracket depth, the in-string
flag, and whether the previous character was an escaping backslash. -/
structure ScanState where
  depth : Int
  inString : Bool
  escaped : Bool
deriving DecidableEq

/-- One character step of the spec automaton as §4.1 words it: a
backslash always consumes the next character without toggling state, an
unescaped quote toggles the in-string flag, and depth is counted only
outside string literals. -/
def scanStep (openB closeB : Char) (st : ScanState) (c : Char) : ScanState :=
  if st.escaped then { st with escaped := false }
  else if c = '\\' then { st with escaped := true }
  else if c = '\"' then { st with inString := !st.inString }
  else if st.inString then st
  else if c = openB then { st with depth := st.depth + 1 }
  else if c = closeB then { st with depth := st.depth - 1 }
  else st

/-- Whether character c, read in state st, is the matching closing
bracket: it is the closing bracket character, read outside any string
literal, not escaped, at depth exactly 1. -/
def closesHere (closeB : Char) (st : ScanState) (c : Char) : Bool :=
  !st.escaped && !st.inString && c == closeB && st.depth == 1

/-- The spec notion of the matching closing bracket: the relative index
of the first character that closes, per the spec automaton, the
structure opened at the scan start. -/
def matchingClose (openB closeB : Char) : List Char → ScanState → Nat → Option Nat
  | [], _, _ => none
  | c :: rest, st, i =>
    if closesHere closeB st c then some i
    else matchingClose openB closeB rest (scanStep openB closeB st c) (i + 1)

/-- A concrete escaped-JSON fragment: the array starting at index 2
contains an object, a string literal holding an unescaped closing
bracket and an escaped quote, and a nested array. -/
def sampleRsc : List Char :=
  "ab[\x7b\"x\":\"v]w\\\"q\",\"ys\":[1,2]\x7d]z".data

/-- A fragment whose array bracket never closes. -/
def sampleRscBad : List Char := "[\x7b\"a\":1".data

theorem saddAll_eq_union (ids : List Nat) (s : KnownIds) :
    saddAll ids s = s ∪ ids.toFinset := by
  induction ids generalizing s with
  | nil => simp [saddAll]
  | cons i t ih =>
    simp only [saddAll, List.foldl_cons] at *
    rw [ih (insert i s)]
    ext x
    simp only [Finset.mem_union, Finset.mem_insert, List.toFinset_cons]
    tauto

theorem syncKnownPropertyIds_eq (currentIds : List Nat) (prior : KnownIds) :
    syncKnownPropertyIds currentIds prior = currentIds.toFinset := by
  cases currentIds with
  | nil => simp [syncKnownPropertyIds, delKnownIds]
  | cons i t =>
    simp [syncKnownPropertyIds, delKnownIds, saddAll_eq_union]

/-- C2: after syncKnownPropertyIds runs with input identifier list L, the
known-ID set equals exactly the set of identifiers in L — including being
empty when L is empty — for every prior state of the set; it is a full
replacement, never a union with the previously stored identifiers. -/
theorem syncKnownPropertyIds_replaces (currentIds : List Nat) (prior : KnownIds) :
    syncKnownPropertyIds currentIds prior = currentIds.toFinset ∧
    syncKnownPropertyIds [] prior = ∅ ∧
    syncKnownPropertyIds currentIds prior = syncKnownPropertyIds currentIds ∅ := by
  refine ⟨syncKnownPropertyIds_eq currentIds prior, ?_, ?_⟩
  · simp [syncKnownPropertyIds_eq]
  · rw [syncKnownPropertyIds_eq, syncKnownPropertyIds_eq]

/-- C3: the new-listing diff returns exactly the listings whose identifier
is absent from the known-ID set: all of them when the set is empty, the
exact set-difference on partial overlap, and the poll cycle computes the
diff against the known-ID set as it was before the update. -/
theorem diffNew_correct :
    (∀ current : List Property, diffNew current ∅ = current) ∧
    (∀ (current : List Property) (K : KnownIds) (p : Property),
        p ∈ diffNew current K ↔ p ∈ current ∧ p.id ∉ K) ∧
    (∀ (current : List Property) (K : KnownIds),
        (diffNew current K).map (·.id)
          = (current.map (·.id)).filter (fun i => decide (i ∉ K))) ∧
    (∀ (snapshot : List Property) (st : SyncState),
        (pollCycle snapshot st).newProperties = diffNew snapshot st.knownIds) := by
  refine ⟨?_, ?_, ?_, ?_⟩
  · intro current
    simp [diffNew]
  · intro current K p
    simp [diffNew]
  · intro current K
    induction current with
    | nil => simp [diffNew]
    | cons q t ih =>
      by_cases hq : q.id ∈ K <;>
        simp_all [diffNew, List.filter_cons, List.map_cons]
  · intro snapshot st
    rfl

/-- C4: a poll that runs in the state reached immediately after a settings
update (clear + reseed from a fresh fetch) dispatches zero notifications
as long as the poll snapshot contains no id outside the reseed snapshot,
even if every reseeded id was never observed before; and a poll in any
state with an empty known-ID set dispatches zero notifications. -/
theorem poll_after_reseed_no_notifications
    (prior : SyncState) (reseedSnapshot pollSnapshot : List Property)
    (hsub : (pollSnapshot.map (·.id)).toFinset ⊆ (reseedSnapshot.map (·.id)).toFinset) :
    (pollCycle pollSnapshot (settingsReseed reseedSnapshot prior)).notified = [] ∧
    (∀ (st : SyncState) (snapshot : List Property),
        st.knownIds = ∅ → (pollCycle snapshot st).notified = []) := by
  constructor
  · have hknown : (settingsReseed reseedSnapshot prior).knownIds
        = (reseedSnapshot.map (·.id)).toFinset := by
      simp [settingsReseed, syncKnownPropertyIds_eq]
    have hdiff : diffNew pollSnapshot (settingsReseed reseedSnapshot prior).knownIds = [] := by
      rw [hknown]
      rw [diffNew, List.filter_eq_nil_iff]
      intro p hp
      simp only [decide_eq_true_eq, Decidable.not_not]
      apply hsub
      simp only [List.mem_toFinset, List.mem_map]
      exact ⟨p, hp, rfl⟩
    simp [pollCycle, hdiff]
  · intro st snapshot hempty
    simp [pollCycle, hempty]

/-- Concrete instantiation of the settings-change suppression theorem: the
prior state knows id 99 only, the reseed snapshot carries the never-seen
ids 101 and 202, and the poll immediately after sees the same two ids. -/
theorem poll_after_reseed_no_notifications_witness :
    ((([sampleProperty2, sampleProperty].map (·.id)).toFinset
        ⊆ (([sampleProperty, sampleProperty2].map (·.id)).toFinset)) ∧
      (pollCycle [sampleProperty2, sampleProperty]
        (settingsReseed [sampleProperty, sampleProperty2]
          ⟨{99}, []⟩)).notified = [] ∧
      (∀ (st : SyncState) (snapshot : List Property),
          st.knownIds = ∅ → (pollCycle snapshot st).notified = [])) := by
  have h := poll_after_reseed_no_notifications ⟨{99}, []⟩
    [sampleProperty, sampleProperty2] [sampleProperty2, sampleProperty]
    (by decide)
  exact ⟨by decide, h.1, h.2⟩

/-- Evaluation rule for the binary64 rounding: a value below the halfway
point rounds down. -/
theorem roundNearestEven_eq_down (x : ℚ) (n : ℤ)
    (h1 : (n : ℚ) ≤ x) (h2 : x < (n : ℚ) + 1 / 2) :
    roundNearestEven x = n := by
  have hfl : ⌊x⌋ = n := Int.floor_eq_iff.mpr ⟨h1, by linarith⟩
  rw [roundNearestEven, hfl, if_pos (by linarith)]

/-- Evaluation rule for the binary64 rounding: a value above the halfway
point rounds up. -/
theorem roundNearestEven_eq_up (x : ℚ) (n : ℤ)
    (h1 : (n : ℚ) + 1 / 2 < x) (h2 : x < (n : ℚ) + 1) :
    roundNearestEven x = n + 1 := by
  have hfl : ⌊x⌋ = n := Int.floor_eq_iff.mpr ⟨by linarith, by linarith⟩
  rw [roundNearestEven, hfl, if_neg (by linarith), if_pos (by linarith)]

/-- Evaluate fl at a concrete value whose scaled mantissa sits below the
halfway point of its grid cell. -/
theorem fl_eq_of_bounds (q : ℚ) (k : Nat) (m : ℤ) (r : ℚ)
    (hbranch : fl q = flAt k q)
    (h1 : (m : ℚ) ≤ q * 2 ^ k) (h2 : q * 2 ^ k < (m : ℚ) + 1 / 2)
    (hr : (m : ℚ) / 2 ^ k = r) :
    fl q = r := by
  rw [hbranch, flAt, roundNearestEven_eq_down _ m h1 h2, hr]

/-- Evaluate fl at a concrete value whose scaled mantissa sits above the
halfway point of its grid cell. -/
theorem fl_eq_of_bounds_up (q : ℚ) (k : Nat) (m : ℤ) (r : ℚ)
    (hbranch : fl q = flAt k q)
    (h1 : (m : ℚ) + 1 / 2 < q * 2 ^ k) (h2 : q * 2 ^ k < (m : ℚ) + 1)
    (hr : ((m : ℚ) + 1) / 2 ^ k = r) :
    fl q = r := by
  rw [hbranch, flAt, roundNearestEven_eq_up _ m h1 h2]
  push_cast
  rw [hr]

/-- Evaluate the one-decimal rounding at a concrete value. -/
theorem roundToTenth_eq_of_bounds (q : ℚ) (n : ℤ) (r : ℚ)
    (h1 : (n : ℚ) ≤ 10 * q + 1 / 2) (h2 : 10 * q + 1 / 2 < (n : ℚ) + 1)
    (hr : (n : ℚ) / 10 = r) :
    roundToTenth q = r := by
  rw [roundToTenth, Int.floor_eq_iff.mpr ⟨h1, by linarith⟩, hr]

/-- C5 counterexample: at station sub-score 1 (walk minutes 16) and
convenience sub-score 4 (one store), all other counts zero, the program
computes the double 1 * 0.25 + 4 * 0.15 just below the tie 0.85 and
toFixed(1) yields 0.8, while the exact weighted sum rounded to one
decimal is 0.9 — so the overall score does not equal the exact weighted
sum rounded to one decimal. -/
theorem overall_rounding_counterexample :
    (mkScore ⟨7, 0, 0, 16⟩ ⟨0, 0, 1, 0⟩).station = 1 ∧
    (mkScore ⟨7, 0, 0, 16⟩ ⟨0, 0, 1, 0⟩).convenience = 4 ∧
    (mkScore ⟨7, 0, 0, 16⟩ ⟨0, 0, 1, 0⟩).overall = 0.8 ∧
    roundToTenth (((mkScore ⟨7, 0, 0, 16⟩ ⟨0, 0, 1, 0⟩).station : ℚ) * 0.25
        + ((mkScore ⟨7, 0, 0, 16⟩ ⟨0, 0, 1, 0⟩).supermarkets : ℚ) * 0.25
        + ((mkScore ⟨7, 0, 0, 16⟩ ⟨0, 0, 1, 0⟩).restaurants : ℚ) * 0.2
        + ((mkScore ⟨7, 0, 0, 16⟩ ⟨0, 0, 1, 0⟩).convenience : ℚ) * 0.15
        + ((mkScore ⟨7, 0, 0, 16⟩ ⟨0, 0, 1, 0⟩).parks : ℚ) * 0.15) = 0.9 ∧
    ¬ (mkScore ⟨7, 0, 0, 16⟩ ⟨0, 0, 1, 0⟩).overall
        = roundToTenth (((mkScore ⟨7, 0, 0, 16⟩ ⟨0, 0, 1, 0⟩).station : ℚ) * 0.25
            + ((mkScore ⟨7, 0, 0, 16⟩ ⟨0, 0, 1, 0⟩).supermarkets : ℚ) * 0.25
            + ((mkScore ⟨7, 0, 0, 16⟩ ⟨0, 0, 1, 0⟩).restaurants : ℚ) * 0.2
            + ((mkScore ⟨7, 0, 0, 16⟩ ⟨0, 0, 1, 0⟩).convenience : ℚ) * 0.15
            + ((mkScore ⟨7, 0, 0, 16⟩ ⟨0, 0, 1, 0⟩).parks : ℚ) * 0.15) := by
  have hfl0 : fl 0 = 0 := by simp [fl]
  have hQ : fl (1 / 4) = 1 / 4 :=
    fl_eq_of_bounds _ 54 4503599627370496 _ (by simp only [fl]; norm_num)
      (by norm_num) (by norm_num) (by norm_num)
  have h015 : fl (3 / 20) = 5404319552844595 / 36028797018963968 :=
    fl_eq_of_bounds _ 55 5404319552844595 _ (by simp only [fl]; norm_num)
      (by norm_num) (by norm_num) (by norm_num)
  have hD : fl (5404319552844595 / 9007199254740992)
      = 5404319552844595 / 9007199254740992 :=
    fl_eq_of_bounds _ 53 5404319552844595 _ (by simp only [fl]; norm_num)
      (by norm_num) (by norm_num) (by norm_num)
  have hE : fl (7656119366529843 / 9007199254740992)
      = 7656119366529843 / 9007199254740992 :=
    fl_eq_of_bounds _ 53 7656119366529843 _ (by simp only [fl]; norm_num)
      (by norm_num) (by norm_num) (by norm_num)
  have hrt08 : roundToTenth (7656119366529843 / 9007199254740992) = 0.8 :=
    roundToTenth_eq_of_bounds _ 8 _ (by norm_num) (by norm_num) (by norm_num)
  have hrt09 : roundToTenth (17 / 20) = 0.9 :=
    roundToTenth_eq_of_bounds _ 9 _ (by norm_num) (by norm_num) (by norm_num)
  have hov : (mkScore ⟨7, 0, 0, 16⟩ ⟨0, 0, 1, 0⟩).overall = 0.8 := by
    norm_num [mkScore, jsWeightedSum, WEIGHTS_station, WEIGHTS_supermarkets,
      WEIGHTS_restaurants, WEIGHTS_convenience, WEIGHTS_parks, scoreStation,
      scoreSupermarkets, scoreRestaurants, scoreConvenience, scoreParks,
      hfl0, hQ, h015, hD, hE, hrt08]
  have hcl : roundToTenth (((mkScore ⟨7, 0, 0, 16⟩ ⟨0, 0, 1, 0⟩).station : ℚ) * 0.25
      + ((mkScore ⟨7, 0, 0, 16⟩ ⟨0, 0, 1, 0⟩).supermarkets : ℚ) * 0.25
      + ((mkScore ⟨7, 0, 0, 16⟩ ⟨0, 0, 1, 0⟩).restaurants : ℚ) * 0.2
      + ((mkScore ⟨7, 0, 0, 16⟩ ⟨0, 0, 1, 0⟩).convenience : ℚ) * 0.15
      + ((mkScore ⟨7, 0, 0, 16⟩ ⟨0, 0, 1, 0⟩).parks : ℚ) * 0.15) = 0.9 := by
    norm_num [mkScore, scoreStation, scoreSupermarkets, scoreRestaurants,
      scoreConvenience, scoreParks, hrt09]
  refine ⟨by decide, by decide, hov, hcl, ?_⟩
  rw [hov, hcl]
  norm_num

/-- C5 (amended): each livability sub-score equals the spec rubric step
function on every input; the computed score record carries exactly those
sub-scores, with the overall score equal to the fixed-weight sum
evaluated in IEEE double-precision arithmetic — as the program computes
it — rounded to one decimal with a tie to the larger value (at exact-tie
points of the ideal weighted sum this can fall one decimal step below
rounding the exact sum); and the rubric instances hold: walk-minutes 4
give station 8, 3 supermarkets give 8, 12 restaurants give 5, 0
convenience stores give 0, and all five sub-scores equal to 10 give
overall 10.0. -/
theorem livability_rubric_correct :
    (∀ w, scoreStation w = rubricStation w) ∧
    (∀ c, scoreSupermarkets c = rubricSupermarkets c) ∧
    (∀ c, scoreRestaurants c = rubricRestaurants c) ∧
    (∀ c, scoreConvenience c = rubricConvenience c) ∧
    (∀ c, scoreParks c = rubricParks c) ∧
    (∀ (p : ScorePropertyInput) (counts : AmenityCounts),
        (mkScore p counts).station = rubricStation p.nearestStationMinutes ∧
        (mkScore p counts).supermarkets = rubricSupermarkets counts.supermarkets ∧
        (mkScore p counts).restaurants = rubricRestaurants counts.restaurants ∧
        (mkScore p counts).convenience = rubricConvenience counts.convenience ∧
        (mkScore p counts).parks = rubricParks counts.parks ∧
        (mkScore p counts).overall
          = roundToTenth (jsWeightedSum
              (rubricStation p.nearestStationMinutes)
              (rubricSupermarkets counts.supermarkets)
              (rubricRestaurants counts.restaurants)
              (rubricConvenience counts.convenience)
              (rubricParks counts.parks))) ∧
    scoreStation 4 = 8 ∧
    scoreSupermarkets 3 = 8 ∧
    scoreRestaurants 12 = 5 ∧
    scoreConvenience 0 = 0 ∧
    (mkScore ⟨7, 0, 0, 3⟩ ⟨4, 60, 3, 3⟩).station = 10 ∧
    (mkScore ⟨7, 0, 0, 3⟩ ⟨4, 60, 3, 3⟩).supermarkets = 10 ∧
    (mkScore ⟨7, 0, 0, 3⟩ ⟨4, 60, 3, 3⟩).restaurants = 10 ∧
    (mkScore ⟨7, 0, 0, 3⟩ ⟨4, 60, 3, 3⟩).convenience = 10 ∧
    (mkScore ⟨7, 0, 0, 3⟩ ⟨4, 60, 3, 3⟩).parks = 10 ∧
    (mkScore ⟨7, 0, 0, 3⟩ ⟨4, 60, 3, 3⟩).overall = 10 := by
  have hst : ∀ w, scoreStation w = rubricStation w := by
    intro w
    unfold scoreStation rubricStation
    split_ifs <;> omega
  have hsm : ∀ c, scoreSupermarkets c = rubricSupermarkets c := by
    intro c
    unfold scoreSupermarkets rubricSupermarkets
    split_ifs <;> omega
  have hre : ∀ c, scoreRestaurants c = rubricRestaurants c := by
    intro c
    unfold scoreRestaurants rubricRestaurants
    split_ifs <;> omega
  have hcv : ∀ c, scoreConvenience c = rubricConvenience c := by
    intro c
    unfold scoreConvenience rubricConvenience
    split_ifs <;> omega
  have hpk : ∀ c, scoreParks c = rubricParks c := by
    intro c
    unfold scoreParks rubricParks
    split_ifs <;> omega
  refine ⟨hst, hsm, hre, hcv, hpk, ?_, by decide, by decide, by decide, by decide,
    by decide, by decide, by decide, by decide, by decide, ?_⟩
  · intro p counts
    refine ⟨(hst _).symm ▸ rfl, (hsm _).symm ▸ rfl, (hre _).symm ▸ rfl,
      (hcv _).symm ▸ rfl, (hpk _).symm ▸ rfl, ?_⟩
    rw [← hst, ← hsm, ← hre, ← hcv, ← hpk]
    rfl
  · have hQ10 : fl (1 / 4) = 1 / 4 :=
      fl_eq_of_bounds _ 54 4503599627370496 _ (by simp only [fl]; norm_num)
        (by norm_num) (by norm_num) (by norm_num)
    have h015b : fl (3 / 20) = 5404319552844595 / 36028797018963968 :=
      fl_eq_of_bounds _ 55 5404319552844595 _ (by simp only [fl]; norm_num)
        (by norm_num) (by norm_num) (by norm_num)
    have h02 : fl (1 / 5) = 3602879701896397 / 18014398509481984 :=
      fl_eq_of_bounds_up _ 55 7205759403792793 _ (by simp only [fl]; norm_num)
        (by norm_num) (by norm_num) (by norm_num)
    have hHalf5 : fl (5 / 2) = 5 / 2 :=
      fl_eq_of_bounds _ 51 5629499534213120 _ (by simp only [fl]; norm_num)
        (by norm_num) (by norm_num) (by norm_num)
    have hFive : fl 5 = 5 :=
      fl_eq_of_bounds _ 50 5629499534213120 _ (by simp only [fl]; norm_num)
        (by norm_num) (by norm_num) (by norm_num)
    have h10w02 : fl (18014398509481985 / 9007199254740992) = 2 :=
      fl_eq_of_bounds _ 51 4503599627370496 _ (by simp only [fl]; norm_num)
        (by norm_num) (by norm_num) (by norm_num)
    have hSeven : fl 7 = 7 :=
      fl_eq_of_bounds _ 50 7881299347898368 _ (by simp only [fl]; norm_num)
        (by norm_num) (by norm_num) (by norm_num)
    have h10w015 : fl (27021597764222975 / 18014398509481984) = 3 / 2 :=
      fl_eq_of_bounds_up _ 52 6755399441055743 _ (by simp only [fl]; norm_num)
        (by norm_num) (by norm_num) (by norm_num)
    have h85 : fl (17 / 2) = 17 / 2 :=
      fl_eq_of_bounds _ 49 4785074604081152 _ (by simp only [fl]; norm_num)
        (by norm_num) (by norm_num) (by norm_num)
    have hTen : fl 10 = 10 :=
      fl_eq_of_bounds _ 49 5629499534213120 _ (by simp only [fl]; norm_num)
        (by norm_num) (by norm_num) (by norm_num)
    have hrt10 : roundToTenth 10 = 10 :=
      roundToTenth_eq_of_bounds _ 100 _ (by norm_num) (by norm_num) (by norm_num)
    norm_num [mkScore, jsWeightedSum, WEIGHTS_station, WEIGHTS_supermarkets,
      WEIGHTS_restaurants, WEIGHTS_convenience, WEIGHTS_parks, scoreStation,
      scoreSupermarkets, scoreRestaurants, scoreConvenience, scoreParks,
      hQ10, h015b, h02, hHalf5, hFive, h10w02, hSeven, h10w015, h85, hTen, hrt10]

/-- C6: evaluation of the part_008 computeCommutes at the failing input: a
batch of three listings, all of which the routing oracle answers
successfully, yields only one result instead of one result per input,
because of the debugLimit slice at part_008 lines 159-160. -/
theorem computeCommutesDebug_truncates_batch :
    ((computeCommutesDebug (fun _ _ => Except.ok (30, 1)) []
        [⟨1, 0, 0⟩, ⟨2, 0, 0⟩, ⟨3, 0, 0⟩]).1).length = 1 ∧
    ¬ ((computeCommutesDebug (fun _ _ => Except.ok (30, 1)) []
        [⟨1, 0, 0⟩, ⟨2, 0, 0⟩, ⟨3, 0, 0⟩]).1).length
        = ([(⟨1, 0, 0⟩ : CommutePropertyInput), ⟨2, 0, 0⟩, ⟨3, 0, 0⟩]).length := by
  decide

/-- Demonstration that the scoring half of the batch contract holds in the
code: with three uncached inputs whose middle fetch fails, computeScores
still returns three results in input order, the middle one being the zero
placeholder, and the cache afterwards holds the first and third scores but
no entry for the failed one (livability module lines 411-454). -/
theorem computeScores_resilience_demo :
    (((computeScores
        (fun la _ => if la = 1 ∨ la = 3 then Except.ok ⟨1, 1, 1, 1⟩ else Except.error "boom")
        [] [⟨1, 1, 0, 4⟩, ⟨2, 2, 0, 4⟩, ⟨3, 3, 0, 4⟩]).1).map (·.propertyId) = [1, 2, 3]) ∧
    (((computeScores
        (fun la _ => if la = 1 ∨ la = 3 then Except.ok ⟨1, 1, 1, 1⟩ else Except.error "boom")
        [] [⟨1, 1, 0, 4⟩, ⟨2, 2, 0, 4⟩, ⟨3, 3, 0, 4⟩]).1).map (·.station)
        = [scoreStation 4, 0, scoreStation 4]) ∧
    (((computeScores
        (fun la _ => if la = 1 ∨ la = 3 then Except.ok ⟨1, 1, 1, 1⟩ else Except.error "boom")
        [] [⟨1, 1, 0, 4⟩, ⟨2, 2, 0, 4⟩, ⟨3, 3, 0, 4⟩]).2).map (·.1) = [3, 1]) ∧
    cacheGet ((computeScores
        (fun la _ => if la = 1 ∨ la = 3 then Except.ok ⟨1, 1, 1, 1⟩ else Except.error "boom")
        [] [⟨1, 1, 0, 4⟩, ⟨2, 2, 0, 4⟩, ⟨3, 3, 0, 4⟩]).2) 2 = none := by
  refine ⟨?_, ?_, ?_, ?_⟩ <;> rfl

/-- C8 counterexample: in the commute.ts variant a failing commute
computation returns the zero placeholder but writes nothing to the cache:
starting from an empty cache, after the batch the cache holds no entry
under the listing identifier, so a later lookup is not served from cache. -/
theorem computeCommutes_failure_not_cached_counterexample :
    (computeCommutes (fun _ _ => Except.error "No route found") []
        [⟨7, 0, 0⟩]).1 = [commutePlaceholder ⟨7, 0, 0⟩] ∧
    (computeCommutes (fun _ _ => Except.error "No route found") []
        [⟨7, 0, 0⟩]).2 = [] ∧
    cacheGet ((computeCommutes (fun _ _ => Except.error "No route found") []
        [⟨7, 0, 0⟩]).2) 7 = none := by
  refine ⟨rfl, rfl, rfl⟩

/-- C8 (amended): in the part_008 variant of the commute engine a failed
computation caches the zero-valued placeholder under the listing
identifier and returns it, and a subsequent lookup for the same listing is
served from the cache whatever the routing service would answer; the
commute.ts variant returns the same placeholder but leaves the cache
unchanged, so it does not suppress re-querying. -/
theorem commute_failure_placeholder_caching
    (p : CommutePropertyInput) (cache : List (Nat × CommuteInfo))
    (routeOutcome : ℚ → ℚ → Except String (Nat × Nat)) (msg : String)
    (hmiss : cacheGet cache p.id = none)
    (hfail : routeOutcome p.latitude p.longitude = Except.error msg) :
    computeCommutesDebug routeOutcome cache [p]
      = ([commutePlaceholder p], cacheSet cache p.id (commutePlaceholder p)) ∧
    (∀ routeOutcome2 : ℚ → ℚ → Except String (Nat × Nat),
        computeCommute routeOutcome2 (cacheSet cache p.id (commutePlaceholder p)) p
          = Except.ok (commutePlaceholder p, cacheSet cache p.id (commutePlaceholder p))) ∧
    computeCommutes routeOutcome cache [p] = ([commutePlaceholder p], cache) := by
  have hstep : computeCommute routeOutcome cache p = Except.error msg := by
    simp [computeCommute, hmiss, hfail]
  refine ⟨?_, ?_, ?_⟩
  · simp [computeCommutesDebug, debugLimit, computeCommutesDebugLoop, hstep]
  · intro routeOutcome2
    simp [computeCommute, cacheGet, cacheSet]
  · simp [computeCommutes, hstep]

/-- Concrete instantiation of the commute placeholder caching theorem at a
single listing with a failing routing oracle and an empty cache. -/
theorem commute_failure_placeholder_caching_witness :
    (cacheGet ([] : List (Nat × CommuteInfo)) (7 : Nat) = none ∧
      (fun (_ : ℚ) (_ : ℚ) => (Except.error "No route found" : Except String (Nat × Nat))) 0 0
        = Except.error "No route found") ∧
    (computeCommutesDebug (fun _ _ => Except.error "No route found") [] [⟨7, 0, 0⟩]
      = ([commutePlaceholder ⟨7, 0, 0⟩],
          cacheSet [] 7 (commutePlaceholder ⟨7, 0, 0⟩)) ∧
    (∀ routeOutcome2 : ℚ → ℚ → Except String (Nat × Nat),
        computeCommute routeOutcome2 (cacheSet [] 7 (commutePlaceholder ⟨7, 0, 0⟩)) ⟨7, 0, 0⟩
          = Except.ok (commutePlaceholder ⟨7, 0, 0⟩,
              cacheSet [] 7 (commutePlaceholder ⟨7, 0, 0⟩))) ∧
    computeCommutes (fun _ _ => Except.error "No route found") [] [⟨7, 0, 0⟩]
      = ([commutePlaceholder ⟨7, 0, 0⟩], [])) := by
  refine ⟨⟨rfl, rfl⟩, ?_⟩
  exact commute_failure_placeholder_caching ⟨7, 0, 0⟩ []
    (fun _ _ => Except.error "No route found") "No route found" rfl rfl

/-- C7 counterexample: the primary answers HTTP 500 and the mirror then
succeeds; the engine makes exactly one attempt against the primary
instead of the three the claim requires for any error, falling through to
the mirror immediately. -/
theorem fetchAmenityCounts_no_retry_on_500_counterexample :
    (((fetchAmenityCounts
          (fun server _ => if server = 0 then OverpassResponse.httpError 500
            else OverpassResponse.ok ⟨1, 1, 1, 1⟩)).2.filter
        (fun a => a.server == 0)).length = 1) ∧
    ¬ (((fetchAmenityCounts
          (fun server _ => if server = 0 then OverpassResponse.httpError 500
            else OverpassResponse.ok ⟨1, 1, 1, 1⟩)).2.filter
        (fun a => a.server == 0)).length = 3) ∧
    (fetchAmenityCounts
          (fun server _ => if server = 0 then OverpassResponse.httpError 500
            else OverpassResponse.ok ⟨1, 1, 1, 1⟩)).1
      = Except.ok ⟨1, 1, 1, 1⟩ := by
  refine ⟨rfl, by decide, rfl⟩

/-- The first attempt a server receives is always attempt 0 with no
backoff, whatever the oracle answers. -/
theorem tryServer_first_attempt (resp : Nat → Nat → OverpassResponse)
    (server : Nat) (url : String) (lastErr : Option String) :
    ∃ rest, (tryServer resp server url MAX_RETRIES 0 lastErr).2.1
      = ⟨server, 0, 0⟩ :: rest := by
  show ∃ rest, (tryServer resp server url 3 0 lastErr).2.1 = ⟨server, 0, 0⟩ :: rest
  cases hr : resp server 0 with
  | ok c => exact ⟨[], by simp [tryServer, hr]⟩
  | rateLimited =>
    refine ⟨(tryServer resp server url 2 1
      (some ("Rate limited (429) on " ++ hostOf url))).2.1, ?_⟩
    simp [tryServer, hr, MAX_RETRIES]
  | httpError status => exact ⟨[], by simp [tryServer, hr]⟩
  | networkError msg => exact ⟨[], by simp [tryServer, hr]⟩

/-- When the mirror loop ends in an error, every server on its list was
actually attempted: the trace holds an attempt for each listed server. -/
theorem fetchServersLoop_error_touches_all (resp : Nat → Nat → OverpassResponse) :
    ∀ (L : List (Nat × String)) (le : Option String) (e : String),
      (fetchServersLoop resp L le).1 = Except.error e →
      ∀ su ∈ L, ∃ a ∈ (fetchServersLoop resp L le).2, a.server = su.1 := by
  intro L
  induction L with
  | nil =>
    intro le e _ su hsu
    simp at hsu
  | cons head rest ih =>
    intro le e herr su hsu
    rcases head with ⟨s0, u0⟩
    obtain ⟨rest0, h0⟩ := tryServer_first_attempt resp s0 u0 le
    rcases htry : tryServer resp s0 u0 MAX_RETRIES 0 le with ⟨r0, t0, l0⟩
    rw [htry] at h0
    simp only at h0
    rcases hrec : fetchServersLoop resp rest l0 with ⟨r2, t2⟩
    rw [List.mem_cons] at hsu
    cases r0 with
    | some c =>
      have hstep : fetchServersLoop resp ((s0, u0) :: rest) le = (Except.ok c, t0) := by
        simp only [fetchServersLoop, htry]
      rw [hstep] at herr
      simp at herr
    | none =>
      have hstep : fetchServersLoop resp ((s0, u0) :: rest) le = (r2, t0 ++ t2) := by
        simp only [fetchServersLoop, htry, hrec]
      rw [hstep] at herr ⊢
      simp only at herr ⊢
      rcases hsu with hsu | hsu
      · subst hsu
        exact ⟨⟨s0, 0, 0⟩, by simp [h0], rfl⟩
      · have herr2 : (fetchServersLoop resp rest l0).1 = Except.error e := by
          rw [hrec]
          exact herr
        obtain ⟨a, ha, has⟩ := ih l0 e herr2 su hsu
        rw [hrec] at ha
        exact ⟨a, by simp [ha], has⟩

/-- C7 (amended): a 429 from a server is retried on that same server, up
to MAX_RETRIES = 3 attempts, with backoff 3000 ms before the second and
6000 ms before the third; any other failure is not retried — a single
attempt is made and the loop falls through to the next mirror; and when
the engine returns an error, every mirror in the priority list appears on
the attempt trace. -/
theorem fetchAmenityCounts_retry_behavior (resp : Nat → Nat → OverpassResponse) :
    (∀ server url lastErr, (∀ a, resp server a = OverpassResponse.rateLimited) →
        tryServer resp server url MAX_RETRIES 0 lastErr
          = (none, [⟨server, 0, 0⟩, ⟨server, 1, 3000⟩, ⟨server, 2, 6000⟩],
              some ("Rate limited (429) on " ++ hostOf url))) ∧
    (∀ server url status lastErr, resp server 0 = OverpassResponse.httpError status →
        tryServer resp server url MAX_RETRIES 0 lastErr
          = (none, [⟨server, 0, 0⟩],
              some ("Overpass error " ++ toString status ++ " on " ++ hostOf url))) ∧
    (∀ server url msg lastErr, resp server 0 = OverpassResponse.networkError msg →
        tryServer resp server url MAX_RETRIES 0 lastErr
          = (none, [⟨server, 0, 0⟩], some msg)) ∧
    (∀ e, (fetchAmenityCounts resp).1 = Except.error e →
        ∀ s < OVERPASS_SERVERS.length,
          ∃ a ∈ (fetchAmenityCounts resp).2, a.server = s) := by
  refine ⟨?_, ?_, ?_, ?_⟩
  · intro server url lastErr h429
    show tryServer resp server url 3 0 lastErr = _
    simp [tryServer, h429 0, h429 1, h429 2, MAX_RETRIES]
  · intro server url status lastErr hresp
    show tryServer resp server url 3 0 lastErr = _
    simp [tryServer, hresp]
  · intro server url msg lastErr hresp
    show tryServer resp server url 3 0 lastErr = _
    simp [tryServer, hresp]
  · intro e herr s hs
    have hmem : ∀ su ∈ OVERPASS_SERVERS.enum,
        ∃ a ∈ (fetchAmenityCounts resp).2, a.server = su.1 :=
      fun su hsu => fetchServersLoop_error_touches_all resp OVERPASS_SERVERS.enum
        none e herr su hsu
    have hs2 : s = 0 ∨ s = 1 := by
      have : OVERPASS_SERVERS.length = 2 := rfl
      omega
    rcases hs2 with h | h
    · subst h
      exact hmem (0, "https://overpass-api.de/api/interpreter") (by decide)
    · subst h
      exact hmem (1, "https://overpass.private.coffee/api/interpreter") (by decide)

/-- Concrete instantiation of the retry behaviour theorem: with the
primary rate limited on every attempt and the mirror failing with HTTP
500, the primary receives exactly three attempts with backoffs 0, 3000
and 6000 ms, the mirror one attempt, and the final error is produced only
after both mirrors appear on the trace. -/
theorem fetchAmenityCounts_retry_behavior_witness :
    ((∀ a, respAllFail 0 a = OverpassResponse.rateLimited) ∧
      respAllFail 1 0 = OverpassResponse.httpError 500 ∧
      (fetchAmenityCounts respAllFail).1
        = Except.error ("Overpass error " ++ toString 500 ++ " on "
            ++ hostOf "https://overpass.private.coffee/api/interpreter")) ∧
    tryServer respAllFail 0 "https://overpass-api.de/api/interpreter" MAX_RETRIES 0 none
      = (none, [⟨0, 0, 0⟩, ⟨0, 1, 3000⟩, ⟨0, 2, 6000⟩],
          some ("Rate limited (429) on "
            ++ hostOf "https://overpass-api.de/api/interpreter")) ∧
    tryServer respAllFail 1 "https://overpass.private.coffee/api/interpreter"
        MAX_RETRIES 0 (some "prior")
      = (none, [⟨1, 0, 0⟩],
          some ("Overpass error " ++ toString 500 ++ " on "
            ++ hostOf "https://overpass.private.coffee/api/interpreter")) ∧
    (∀ s < OVERPASS_SERVERS.length,
        ∃ a ∈ (fetchAmenityCounts respAllFail).2, a.server = s) := by
  refine ⟨⟨fun a => rfl, rfl, rfl⟩, ?_, ?_, ?_⟩
  · exact (fetchAmenityCounts_retry_behavior respAllFail).1 0
      "https://overpass-api.de/api/interpreter" none (fun a => rfl)
  · exact (fetchAmenityCounts_retry_behavior respAllFail).2.1 1
      "https://overpass.private.coffee/api/interpreter" 500 (some "prior") rfl
  · exact (fetchAmenityCounts_retry_behavior respAllFail).2.2.2 _ rfl

/-- Folding the per-endpoint removal step over a subscription list
filters the registry by the hash keys of the endpoints the transport
reported gone. -/
theorem removeFold_eq_filter (transport : String → SendOutcome) :
    ∀ (subs : List PushSubscriptionRecord) (reg : Registry),
      subs.foldl
        (fun reg sub =>
          if isGone (transport sub.endpoint) then removeSubscription sub.endpoint reg
          else reg)
        reg
      = reg.filter (fun e =>
          !(subs.any (fun s =>
              isGone (transport s.endpoint) && e.1 == hashEndpoint s.endpoint))) := by
  intro subs
  induction subs with
  | nil =>
    intro reg
    simp
  | cons s t ih =>
    intro reg
    simp only [List.foldl_cons, List.any_cons]
    by_cases hg : isGone (transport s.endpoint)
    · rw [if_pos hg, ih (removeSubscription s.endpoint reg), removeSubscription,
        List.filter_filter]
      apply List.filter_congr
      intro e _
      cases he : (e.1 == hashEndpoint s.endpoint) <;> simp [hg, he]
    · rw [if_neg hg, ih reg]
      apply List.filter_congr
      intro e _
      simp [Bool.eq_false_iff.mpr hg]

/-- C9: with at least two new listings, the dispatcher makes exactly one
delivery attempt per registered endpoint, all attempts carrying one and
the same shared payload, whose title states the listing count and whose
body is at most three short summaries; afterwards exactly the endpoints
whose delivery reported status 404 or 410 are gone from the registry,
every other endpoint surviving — so no per-endpoint failure suppresses
the attempts to the rest. -/
theorem notifyNewProperties_dispatch_correct
    (transport : String → SendOutcome) (registry : Registry)
    (history : List AppNotification) (properties : List Property)
    (hlen : 2 ≤ properties.length)
    (hkeys : ∀ e ∈ registry, e.1 = hashEndpoint e.2.endpoint)
    (hnodup : (registry.map (·.1)).Nodup) :
    (notifyNewProperties transport true registry history properties).sends
      = registry.map (fun e => (e.2.endpoint, mkPayload properties)) ∧
    (mkPayload properties).title = toString properties.length ++ " new listings found" ∧
    (∃ summaries : List String,
        (mkPayload properties).body = String.intercalate "\n" summaries ∧
        summaries.length ≤ 3) ∧
    (notifyNewProperties transport true registry history properties).registry
      = registry.filter (fun e => !(isGone (transport e.2.endpoint))) := by
  have hne : properties.isEmpty = false := by
    cases properties with
    | nil => simp at hlen
    | cons p rest => rfl
  have hlen1 : properties.length ≠ 1 := by omega
  have htitle : (mkPayload properties).title
      = toString properties.length ++ " new listings found" := by
    simp [mkPayload, hlen1]
  have hbody : (mkPayload properties).body
      = String.intercalate "\n"
          ((properties.take 3).map
            (fun p => p.name ++ " - ¥" ++ toLocaleString p.rent_amount)) := by
    simp [mkPayload, hlen1]
  by_cases hreg : registry = []
  · subst hreg
    refine ⟨?_, htitle, ?_, ?_⟩
    · simp [notifyNewProperties, hne, getAllSubscriptions]
    · exact ⟨(properties.take 3).map
          (fun p => p.name ++ " - ¥" ++ toLocaleString p.rent_amount),
        hbody, by simp⟩
    · simp [notifyNewProperties, hne, getAllSubscriptions]
  · have hsubs : (getAllSubscriptions registry).isEmpty = false := by
      cases registry with
      | nil => exact absurd rfl hreg
      | cons e r => rfl
    have hres : notifyNewProperties transport true registry history properties
        = ⟨properties.map mkNotification,
            (getAllSubscriptions registry).foldl
              (fun reg sub =>
                if isGone (transport sub.endpoint) then removeSubscription sub.endpoint reg
                else reg)
              registry,
            addNotifications (properties.map mkNotification) history,
            (getAllSubscriptions registry).map
              (fun sub => (sub.endpoint, mkPayload properties))⟩ := by
      simp [notifyNewProperties, hne, hsubs]
    refine ⟨?_, htitle, ?_, ?_⟩
    · rw [hres]
      simp [getAllSubscriptions, List.map_map, Function.comp]
    · exact ⟨(properties.take 3).map
          (fun p => p.name ++ " - ¥" ++ toLocaleString p.rent_amount),
        hbody, by simp⟩
    · rw [hres]
      simp only
      rw [removeFold_eq_filter]
      apply List.filter_congr
      intro e he
      congr 1
      cases hg : isGone (transport e.2.endpoint) with
      | true =>
        apply List.any_eq_true.mpr
        refine ⟨e.2, List.mem_map_of_mem _ he, ?_⟩
        rw [hg, ← hkeys e he]
        simp
      | false =>
        apply List.any_eq_false.mpr
        intro s hs
        rcases List.mem_map.mp hs with ⟨f, hf, rfl⟩
        intro hcontra
        rcases Bool.and_eq_true_iff.mp hcontra with ⟨hgone, hbeq⟩
        have hef : e.1 = f.1 := by
          rw [eq_of_beq hbeq, ← hkeys f hf]
        have : e = f := List.inj_on_of_nodup_map hnodup he hf hef
        rw [this] at hg
        rw [hg] at hgone
        simp at hgone

/-- C10: with no registered push endpoints, or without configured VAPID
keys, notifyNewProperties returns the empty record list, attempts no
delivery and leaves both the registry and the notification history
unchanged, even for a nonempty list of new listings; and appending an
empty record list to the history is a no-op. -/
theorem notifyNewProperties_disabled_frame
    (transport : String → SendOutcome) (vapidConfigured : Bool)
    (registry : Registry) (history : List AppNotification)
    (properties : List Property)
    (hdisabled : vapidConfigured = false ∨ registry = []) :
    notifyNewProperties transport vapidConfigured registry history properties
      = ⟨[], registry, history, []⟩ ∧
    (∀ h : List AppNotification, addNotifications [] h = h) := by
  constructor
  · by_cases hp : properties.isEmpty
    · simp [notifyNewProperties, hp]
    · rcases hdisabled with hv | hr
      · subst hv
        simp [notifyNewProperties, hp]
      · subst hr
        cases hv : vapidConfigured <;>
          simp [notifyNewProperties, hp, getAllSubscriptions]
  · intro h
    simp [addNotifications]

/-- Concrete instantiation of the dispatch theorem: two new listings and
the three-endpoint registry; one shared count-titled payload goes to all
three endpoints, the gone endpoint disappears from the registry and the
other two survive. -/
theorem notifyNewProperties_dispatch_correct_witness :
    (2 ≤ ([sampleProperty, sampleProperty2] : List Property).length ∧
      (∀ e ∈ sampleRegistry, e.1 = hashEndpoint e.2.endpoint) ∧
      (sampleRegistry.map (·.1)).Nodup) ∧
    ((notifyNewProperties sampleTransport true sampleRegistry []
        [sampleProperty, sampleProperty2]).sends
      = sampleRegistry.map
          (fun e => (e.2.endpoint, mkPayload [sampleProperty, sampleProperty2])) ∧
    (mkPayload [sampleProperty, sampleProperty2]).title
      = toString ([sampleProperty, sampleProperty2] : List Property).length
          ++ " new listings found" ∧
    (∃ summaries : List String,
        (mkPayload [sampleProperty, sampleProperty2]).body
          = String.intercalate "\n" summaries ∧ summaries.length ≤ 3) ∧
    (notifyNewProperties sampleTransport true sampleRegistry []
        [sampleProperty, sampleProperty2]).registry
      = sampleRegistry.filter (fun e => !(isGone (sampleTransport e.2.endpoint)))) := by
  refine ⟨⟨by decide, by decide, by decide⟩, ?_⟩
  exact notifyNewProperties_dispatch_correct sampleTransport sampleRegistry []
    [sampleProperty, sampleProperty2] (by decide) (by decide) (by decide)

/-- Concrete instantiation of the disabled frame theorem: VAPID keys not
configured, a nonempty registry, a nonempty listing batch — nothing is
recorded, sent or changed. -/
theorem notifyNewProperties_disabled_frame_witness :
    ((false : Bool) = false ∨ sampleRegistry = []) ∧
    (notifyNewProperties sampleTransport false sampleRegistry []
        [sampleProperty, sampleProperty2]
      = ⟨[], sampleRegistry, [], []⟩ ∧
    (∀ h : List AppNotification, addNotifications [] h = h)) := by
  refine ⟨Or.inl rfl, ?_⟩
  exact notifyNewProperties_disabled_frame sampleTransport false sampleRegistry []
    [sampleProperty, sampleProperty2] (Or.inl rfl)

/-- The code loop computes exactly the spec matching-close index, for any
bracket pair whose closer is distinct from the opener, the quote and the
backslash. -/
theorem extractLoop_eq_matchingClose (openB closeB : Char)
    (hoc : openB ≠ closeB) (hcq : closeB ≠ '\"') (hcb : closeB ≠ '\\') :
    ∀ (cs : List Char) (depth : Int) (inString escaped : Bool) (i : Nat),
      extractLoop openB closeB cs depth inString escaped i
        = matchingClose openB closeB cs ⟨depth, inString, escaped⟩ i := by
  intro cs
  induction cs with
  | nil =>
    intro depth inString escaped i
    rfl
  | cons c rest ih =>
    intro depth inString escaped i
    cases escaped with
    | true =>
      simp [extractLoop, matchingClose, closesHere, scanStep, ih]
    | false =>
      by_cases hbs : c = '\\'
      · subst hbs
        simp [extractLoop, matchingClose, closesHere, scanStep, ih, Ne.symm hcb]
      · by_cases hq : c = '\"'
        · subst hq
          simp [extractLoop, matchingClose, closesHere, scanStep, ih, Ne.symm hcq, hbs]
        · cases inString with
          | true =>
            simp [extractLoop, matchingClose, closesHere, scanStep, ih, hbs, hq]
          | false =>
            by_cases hcc : c = closeB
            · subst hcc
              by_cases hd : depth = 1
              · subst hd
                simp [extractLoop, matchingClose, closesHere, scanStep, hbs, hq,
                  Ne.symm hoc, hcb, hcq]
              · have hd0 : ¬ (depth - 1 = 0) := by omega
                simp [extractLoop, matchingClose, closesHere, scanStep, ih, hbs, hq,
                  Ne.symm hoc, hcb, hcq, hd, hd0]
            · by_cases hop : c = openB
              · subst hop
                simp [extractLoop, matchingClose, closesHere, scanStep, ih, hbs, hq,
                  hcc, hoc]
              · simp [extractLoop, matchingClose, closesHere, scanStep, ih, hbs, hq,
                  hcc, hop]

/-- C1: whenever the spec automaton finds a matching closing bracket for
the structure starting at index i — depth counted only outside string
literals, the in-string flag toggled by unescaped quotes, a backslash
always consuming the next character, in-string brackets never counted —
the extractor returns exactly the substring from i through that matching
close, for the array extractor and for the brace scan of the metadata
extractor alike; and when the input ends before the depth returns to
zero, the array extractor fails with its error rather than returning a
substring, while the metadata scan yields none. -/
theorem extractBalanced_matches_spec (s : List Char) (i : Nat) :
    (∀ j, matchingClose '[' ']' (s.drop i) ⟨0, false, false⟩ 0 = some j →
        extractBalancedArray s i = Except.ok ((s.drop i).take (j + 1))) ∧
    (matchingClose '[' ']' (s.drop i) ⟨0, false, false⟩ 0 = none →
        extractBalancedArray s i
          = Except.error "Could not find matching bracket for properties array") ∧
    (∀ j, matchingClose '\x7b' '\x7d' (s.drop i) ⟨0, false, false⟩ 0 = some j →
        extractMetaObject s i = some ((s.drop i).take (j + 1))) ∧
    (matchingClose '\x7b' '\x7d' (s.drop i) ⟨0, false, false⟩ 0 = none →
        extractMetaObject s i = none) := by
  have harr := extractLoop_eq_matchingClose '[' ']'
    (by decide) (by decide) (by decide) (s.drop i) 0 false false 0
  have hobj := extractLoop_eq_matchingClose '\x7b' '\x7d'
    (by decide) (by decide) (by decide) (s.drop i) 0 false false 0
  refine ⟨?_, ?_, ?_, ?_⟩
  · intro j hj
    rw [extractBalancedArray, harr, hj]
  · intro hnone
    rw [extractBalancedArray, harr, hnone]
  · intro j hj
    rw [extractMetaObject, hobj, hj]
  · intro hnone
    rw [extractMetaObject, hobj, hnone]

/-- Concrete instantiation of the extractor theorem: on the sample
fragment the array extractor returns exactly the bracket-to-matching-
bracket substring, ignoring the bracket inside the string literal and
the escaped quote; the brace scan returns the object; and on the
unclosed fragment the array extractor fails with its error. -/
theorem extractBalanced_matches_spec_witness :
    (matchingClose '[' ']' (sampleRsc.drop 2) ⟨0, false, false⟩ 0 = some 26 ∧
      extractBalancedArray sampleRsc 2 = Except.ok ((sampleRsc.drop 2).take 27) ∧
      (sampleRsc.drop 2).take 27
        = "[\x7b\"x\":\"v]w\\\"q\",\"ys\":[1,2]\x7d]".data) ∧
    (matchingClose '\x7b' '\x7d' (sampleRsc.drop 3) ⟨0, false, false⟩ 0 = some 24 ∧
      extractMetaObject sampleRsc 3 = some ((sampleRsc.drop 3).take 25) ∧
      (sampleRsc.drop 3).take 25
        = "\x7b\"x\":\"v]w\\\"q\",\"ys\":[1,2]\x7d".data) ∧
    (matchingClose '[' ']' (sampleRscBad.drop 0) ⟨0, false, false⟩ 0 = none ∧
      extractBalancedArray sampleRscBad 0
        = Except.error "Could not find matching bracket for properties array") := by
  have h1 : matchingClose '[' ']' (sampleRsc.drop 2) ⟨0, false, false⟩ 0 = some 26 := by
    decide
  have h2 : matchingClose '\x7b' '\x7d' (sampleRsc.drop 3) ⟨0, false, false⟩ 0
      = some 24 := by
    decide
  have h3 : matchingClose '[' ']' (sampleRscBad.drop 0) ⟨0, false, false⟩ 0 = none := by
    decide
  refine ⟨⟨h1, ?_, by decide⟩, ⟨h2, ?_, by decide⟩, ⟨h3, ?_⟩⟩
  · exact (extractBalanced_matches_spec sampleRsc 2).1 26 h1
  · exact (extractBalanced_matches_spec sampleRsc 3).2.2.1 24 h2
  · exact (extractBalanced_matches_spec sampleRscBad 0).2.1 h3

end Aparto
